import Mathlib

/-!
Verification development for the jobsdb-backend authentication core.

The TypeScript sources are shallowly embedded as executable Lean functions:
millisecond timestamps become `Int`, nullable columns become `Option`,
the relational store becomes lists of records, and the external
collaborators (JWT primitive, bcrypt, SHA-256, mail transport, random
generation) become explicit function/value parameters, as the spec
directs ("treated as a black box").
-/

namespace JobsDB

/-- Milliseconds since epoch, as JavaScript `Date.getTime()` arithmetic. -/
abbrev Time := Int

/-! ## Configuration constants (src/config/env.ts, `CONFIG`) -/

/-- `CONFIG.SECURITY.MAX_LOGIN_ATTEMPTS = 5`. -/
def MAX_LOGIN_ATTEMPTS : Nat := 5

/-- `CONFIG.SECURITY.LOCKOUT_DURATION = 5 * 60 * 1000` ms. -/
def LOCKOUT_DURATION : Int := 5 * 60 * 1000

/-- `CONFIG.SECURITY.ATTEMPT_WINDOW = 30 * 60 * 1000` ms. -/
def ATTEMPT_WINDOW : Int := 30 * 60 * 1000

/-- `CONFIG.OTP_EXPIRY = 10 * 60 * 1000` ms. -/
def OTP_EXPIRY : Int := 10 * 60 * 1000

/-- `CONFIG.TRUSTED_DEVICE_EXPIRY = 60 * 60 * 1000` ms. -/
def TRUSTED_DEVICE_EXPIRY : Int := 60 * 60 * 1000

/-! ## Shared helpers for JavaScript truthiness on optional strings -/

/-- JavaScript truthiness of an optional string: `undefined`/`null` and `""`
are falsy. -/
def truthyStr : Option String → Bool
  | some s => !s.isEmpty
  | none => false

/-- JavaScript falsiness `!x` for an optional string field. -/
def strFalsy (s : Option String) : Bool := !truthyStr s

/-- JavaScript `string.split(sep)` for a one-character separator, on
character lists (structurally recursive so that proofs can evaluate it). -/
def splitOnChar (sep : Char) : List Char → List Char → List (List Char)
  | [], acc => [acc.reverse]
  | c :: cs, acc =>
    if c == sep then acc.reverse :: splitOnChar sep cs []
    else splitOnChar sep cs (c :: acc)

/-! ## Password and secret utilities (src/utils/security.ts)

`constantTimeCompare` is imported from `src/utils/security.ts` by
`twoFactor.ts`, `password.ts` and `middleware/auth.ts`, but its definition
is absent from the provided sources (only callers are present). -/

/-- Modelled from the spec: `constantTimeCompare(a, b)` from
`src/utils/security.ts`, whose body is missing from the provided sources.
Per the spec it pads both strings to the common maximum length, compares
every character position doing the full comparison work, and returns false
on a length mismatch. -/
def constantTimeCompare (a b : String) : Bool :=
  let n := max a.length b.length
  let aPad := a.toList ++ List.replicate (n - a.length) (Char.ofNat 0)
  let bPad := b.toList ++ List.replicate (n - b.length) (Char.ofNat 0)
  ((aPad.zip bPad).all fun p => p.1 == p.2) && a.length == b.length

/-! ## Login attempts and the brute-force guard (src/utils/security.ts) -/

/-- A row of the `LoginAttempt` table (prisma/schema.prisma). -/
structure LoginAttempt where
  ipAddress : String
  usernameOrEmail : String
  isSuccess : Bool
  deviceId : Option String
  userId : Option String
  createdAt : Time
deriving Repr, DecidableEq

/-- `prisma.loginAttempt.findFirst({where: p, orderBy: {createdAt: 'desc'}})`:
the matching row with the greatest `createdAt` (first-in-list wins ties). -/
def latestMatch (p : LoginAttempt → Bool) (l : List LoginAttempt) :
    Option LoginAttempt :=
  l.foldl
    (fun acc a =>
      if p a then
        match acc with
        | none => some a
        | some b => if a.createdAt > b.createdAt then some a else some b
      else acc)
    none

/-- The disjunction shared by all three queries of
`checkBruteForceProtection`: the row matches the request's IP, OR its
typed username/email, OR (when a device id was sent) its device id. -/
def bfDimMatch (usernameOrEmail ip : String) (deviceId : Option String)
    (a : LoginAttempt) : Bool :=
  a.ipAddress == ip || a.usernameOrEmail == usernameOrEmail ||
    (truthyStr deviceId && a.deviceId == deviceId)

/-- The `lastSuccessfulAttempt` query of `checkBruteForceProtection`
(no time filter). -/
def bfLastSuccess (attempts : List LoginAttempt)
    (usernameOrEmail ip : String) (deviceId : Option String) :
    Option LoginAttempt :=
  latestMatch
    (fun a => a.isSuccess && bfDimMatch usernameOrEmail ip deviceId a)
    attempts

/-- `startCountFrom`: the last successful attempt's `createdAt` when one
exists, otherwise `now − ATTEMPT_WINDOW` (`checkFrom`). -/
def bfStartCountFrom (attempts : List LoginAttempt)
    (usernameOrEmail ip : String) (deviceId : Option String) (now : Time) :
    Time :=
  match bfLastSuccess attempts usernameOrEmail ip deviceId with
  | some a => a.createdAt
  | none => now - ATTEMPT_WINDOW

/-- The `lastFailedAttempt` query: most recent failure strictly after
`startCountFrom` (`createdAt: { gt: startCountFrom }`). -/
def bfLastFailed (attempts : List LoginAttempt)
    (usernameOrEmail ip : String) (deviceId : Option String)
    (startCountFrom : Time) : Option LoginAttempt :=
  latestMatch
    (fun a => !a.isSuccess && bfDimMatch usernameOrEmail ip deviceId a &&
      a.createdAt > startCountFrom)
    attempts

/-- The `failedAttemptsCount` query: failures at or after `startCountFrom`
(`createdAt: { gte: startCountFrom }`). -/
def bfFailedCount (attempts : List LoginAttempt)
    (usernameOrEmail ip : String) (deviceId : Option String)
    (startCountFrom : Time) : Nat :=
  (attempts.filter
    (fun a => !a.isSuccess && bfDimMatch usernameOrEmail ip deviceId a &&
      a.createdAt ≥ startCountFrom)).length

/-- The two user-visible message shapes of the brute-force guard:
"เหลือโอกาสอีก n ครั้ง" (n attempts left) and the temporary-lockout
message carrying the remaining time. -/
inductive BFMessage where
  | attemptsLeftMsg (n : Nat)
  | lockedMsg (remainingSeconds : Int)
deriving Repr, DecidableEq

/-- Return shape of `checkBruteForceProtection`:
`{ isLocked, message?, remainingTime? }` (remaining time in seconds). -/
structure BruteForceResult where
  isLocked : Bool
  message : Option BFMessage := none
  remainingTime : Option Int := none
deriving Repr, DecidableEq

/-- The tail of `checkBruteForceProtection` after `startCountFrom` has been
computed: find the most recent qualifying failure, early-return unlocked if
none, count the window's failures, then branch on the ceiling and the
lockout expiry (`Math.ceil(remainingMs / 1000)` seconds). -/
def bfEvaluate (attempts : List LoginAttempt) (usernameOrEmail ip : String)
    (deviceId : Option String) (now : Time) (startCountFrom : Time) :
    BruteForceResult :=
  match bfLastFailed attempts usernameOrEmail ip deviceId startCountFrom with
  | none => { isLocked := false }
  | some lastFailed =>
    let failedAttemptsCount :=
      bfFailedCount attempts usernameOrEmail ip deviceId startCountFrom
    if failedAttemptsCount < MAX_LOGIN_ATTEMPTS then
      { isLocked := false
        message := some (.attemptsLeftMsg
          (MAX_LOGIN_ATTEMPTS - failedAttemptsCount)) }
    else
      let lockoutTime := lastFailed.createdAt + LOCKOUT_DURATION
      if now < lockoutTime then
        let remainingMs := lockoutTime - now
        let remainingSeconds := (remainingMs + 999) / 1000
        { isLocked := true
          message := some (.lockedMsg remainingSeconds)
          remainingTime := some remainingSeconds }
      else { isLocked := false }

/-- `checkBruteForceProtection(usernameOrEmail, req)` from
src/utils/security.ts, with the request's IP, body device id and the
attempt table made explicit. -/
def checkBruteForceProtection (attempts : List LoginAttempt)
    (usernameOrEmail ip : String) (deviceId : Option String) (now : Time) :
    BruteForceResult :=
  bfEvaluate attempts usernameOrEmail ip deviceId now
    (bfStartCountFrom attempts usernameOrEmail ip deviceId now)

/-- Written from the spec's words for claim C2: the counting window starts
at "the later of (last success, now−W)". -/
def bfSpecWindowStart (attempts : List LoginAttempt)
    (usernameOrEmail ip : String) (deviceId : Option String) (now : Time) :
    Time :=
  match bfLastSuccess attempts usernameOrEmail ip deviceId with
  | some a => max a.createdAt (now - ATTEMPT_WINDOW)
  | none => now - ATTEMPT_WINDOW

/-- The brute-force guard as claim C2 describes it: identical to
`checkBruteForceProtection` except that the counting window starts at the
later of (last success, now−W). -/
def checkBruteForceSpecWindow (attempts : List LoginAttempt)
    (usernameOrEmail ip : String) (deviceId : Option String) (now : Time) :
    BruteForceResult :=
  bfEvaluate attempts usernameOrEmail ip deviceId now
    (bfSpecWindowStart attempts usernameOrEmail ip deviceId now)

/-- Claim C1 as stated, instantiated at one input: whenever the count of
qualifying failed attempts is below the ceiling the guard returns
not-locked and surfaces "attempts remaining" = N − count; whenever the
count reaches the ceiling it branches on the most recent qualifying
failure's timestamp plus the lockout duration. -/
def c1ClaimAt (attempts : List LoginAttempt) (usernameOrEmail ip : String)
    (deviceId : Option String) (now : Time) : Prop :=
  let s := bfStartCountFrom attempts usernameOrEmail ip deviceId now
  let cnt := bfFailedCount attempts usernameOrEmail ip deviceId s
  let r := checkBruteForceProtection attempts usernameOrEmail ip deviceId now
  (cnt < MAX_LOGIN_ATTEMPTS →
    r = { isLocked := false
          message := some (.attemptsLeftMsg (MAX_LOGIN_ATTEMPTS - cnt)) }) ∧
  (MAX_LOGIN_ATTEMPTS ≤ cnt →
    ∃ m, bfLastFailed attempts usernameOrEmail ip deviceId s = some m ∧
      ((now < m.createdAt + LOCKOUT_DURATION → r.isLocked = true) ∧
       (m.createdAt + LOCKOUT_DURATION ≤ now → r.isLocked = false)))

/-- Concrete attempt history for the claim C2 counterexample: one matching
success at t = 0, four matching failures just after it, and one matching
failure at t = 1,900,000; the check runs at now = 2,000,000 so the success
lies well before now − W = 200,000. -/
def c2Attempts : List LoginAttempt :=
  [ { ipAddress := "1.2.3.4", usernameOrEmail := "alice", isSuccess := true,
      deviceId := none, userId := none, createdAt := 0 },
    { ipAddress := "1.2.3.4", usernameOrEmail := "alice", isSuccess := false,
      deviceId := none, userId := none, createdAt := 1 },
    { ipAddress := "1.2.3.4", usernameOrEmail := "alice", isSuccess := false,
      deviceId := none, userId := none, createdAt := 2 },
    { ipAddress := "1.2.3.4", usernameOrEmail := "alice", isSuccess := false,
      deviceId := none, userId := none, createdAt := 3 },
    { ipAddress := "1.2.3.4", usernameOrEmail := "alice", isSuccess := false,
      deviceId := none, userId := none, createdAt := 4 },
    { ipAddress := "1.2.3.4", usernameOrEmail := "alice", isSuccess := false,
      deviceId := none, userId := none, createdAt := 1900000 } ]

/-- Concrete attempt history for the claim C1 amended witness: a single
matching failure at t = 1,900,000, checked at now = 2,000,000. -/
def c1WitnessAttempts : List LoginAttempt :=
  [ { ipAddress := "1.2.3.4", usernameOrEmail := "alice", isSuccess := false,
      deviceId := none, userId := none, createdAt := 1900000 } ]

/-- Concrete attempt history for the claim C2 amended witness: a matching
success at t = 1,950,000 (inside the 30-minute window at now = 2,000,000)
followed by a matching failure. -/
def c2WitnessAttempts : List LoginAttempt :=
  [ { ipAddress := "1.2.3.4", usernameOrEmail := "alice", isSuccess := true,
      deviceId := none, userId := none, createdAt := 1950000 },
    { ipAddress := "1.2.3.4", usernameOrEmail := "alice", isSuccess := false,
      deviceId := none, userId := none, createdAt := 1960000 } ]

/-! ## Users, trusted devices and the credential store (prisma/schema.prisma) -/

/-- A row of the `User` table. -/
structure User where
  id : String
  username : String
  email : String
  fullName : String
  password : Option String
  provider : String
  isEmailVerified : Bool
  emailVerifyToken : Option String
  emailVerifyExpires : Option Time
  twoFactorEnabled : Bool
  twoFactorOTP : Option String
  twoFactorExpires : Option Time
  lastTempToken : Option String
  resetPasswordToken : Option String
  resetPasswordExpires : Option Time
deriving Repr, DecidableEq

/-- A row of the `TrustedDevice` table (unique per userId + deviceId). -/
structure TrustedDevice where
  userId : String
  deviceId : String
  expiresAt : Time
deriving Repr, DecidableEq

/-- The credential store as the controllers see it. -/
structure DB where
  users : List User
  trustedDevices : List TrustedDevice
deriving Repr, DecidableEq

/-- Update the users whose `id` matches (prisma `user.update({where:{id}})`;
`id` is unique so at most one row changes). -/
def updateUserById (users : List User) (uid : String) (f : User → User) :
    List User :=
  users.map fun u => if u.id == uid then f u else u

/-- The decoded JWT payload (`DecodedToken` of middleware/auth.ts plus the
`temp`/`deviceId` fields the temporary token carries). -/
structure TokenPayload where
  id : String
  email : String
  temp : Bool
  deviceId : Option String
deriving Repr, DecidableEq

/-- Modelled from the spec: the external collaborators. `src/utils/jwt.ts`
(sign/verify of session and temporary tokens) is absent from the provided
sources, and bcrypt, SHA-256, the mail transport and random generation are
external per the spec, so each becomes an explicit function: `decode` is
`verifyToken` (`none` = invalid or expired), `sign` issues a full session
token for a user id, `hash`/`compare` are bcrypt, `sha256` is
`hashString`/`crypto.createHash("sha256")`. -/
structure AuthEnv where
  decode : String → Option TokenPayload
  sign : String → String
  hash : String → String
  compare : String → String → Bool
  sha256 : String → String

/-- prisma `trustedDevice.update({where:{id: existingDevice.id}})` after a
`findFirst`: only the first matching row is touched. -/
def updateFirstTrusted : List TrustedDevice → String → String → Time →
    List TrustedDevice
  | [], _, _, _ => []
  | t :: ts, userId, deviceId, expiresAt =>
    if t.userId == userId && t.deviceId == deviceId then
      { t with expiresAt := expiresAt } :: ts
    else t :: updateFirstTrusted ts userId deviceId expiresAt

/-- `saveTrustedDevice(userId, deviceId)` from src/utils/security.ts:
no-op on a falsy device id, otherwise update the first existing
(userId, deviceId) row's expiry, or create a new row, with
`expiresAt = now + TRUSTED_DEVICE_EXPIRY`. -/
def saveTrustedDevice (db : DB) (now : Time) (userId deviceId : String) :
    DB :=
  if deviceId.isEmpty then db
  else
    let expiresAt := now + TRUSTED_DEVICE_EXPIRY
    if db.trustedDevices.any
        (fun t => t.userId == userId && t.deviceId == deviceId) then
      { db with trustedDevices :=
          updateFirstTrusted db.trustedDevices userId deviceId expiresAt }
    else
      { db with trustedDevices :=
          db.trustedDevices ++ [⟨userId, deviceId, expiresAt⟩] }

/-- `checkTrustedDevice(userId, deviceId)` from src/utils/security.ts:
true iff a non-expired row exists; a falsy device id is never trusted. -/
def checkTrustedDevice (db : DB) (now : Time) (userId deviceId : String) :
    Bool :=
  if deviceId.isEmpty then false
  else db.trustedDevices.any fun t =>
    t.userId == userId && t.deviceId == deviceId && now < t.expiresAt

/-! ## Input validation (src/utils/validation.ts) -/

/-- Result shape of the validators (user-facing message text omitted). -/
structure ValidationResult where
  isValid : Bool
deriving Repr, DecidableEq

/-- A character allowed by `/^[a-zA-Z0-9_]+$/`. -/
def isUsernameChar (c : Char) : Bool :=
  ( 'a' ≤ c && c ≤ 'z') || ( 'A' ≤ c && c ≤ 'Z') ||
    ( '0' ≤ c && c ≤ '9') || c == '_'

/-- `validateUsername`: `/^[a-zA-Z0-9_]+$/` and length 3–20. -/
def validateUsername (username : String) : ValidationResult :=
  if username.isEmpty || !(username.toList.all isUsernameChar) then ⟨false⟩
  else if username.length < 3 || username.length > 20 then ⟨false⟩
  else ⟨true⟩

/-- `validatePassword`: at least 8 chars, one upper, one lower, one digit. -/
def validatePassword (password : String) : ValidationResult :=
  if password.length < 8 then ⟨false⟩
  else if !(password.toList.any fun c => 'A' ≤ c && c ≤ 'Z') then ⟨false⟩
  else if !(password.toList.any fun c => 'a' ≤ c && c ≤ 'z') then ⟨false⟩
  else if !(password.toList.any fun c => '0' ≤ c && c ≤ '9') then ⟨false⟩
  else ⟨true⟩

/-- A character matched by `[^\s@]` (no whitespace, no `@`). -/
def isEmailChar (c : Char) : Bool :=
  !(c == ' ' || c == '\t' || c == '\n' || c == '\r' || c == '@')

/-- `validateEmail`: `/^[^\s@]+@[^\s@]+\.[^\s@]+$/` — exactly one `@` with a
nonempty local part, and a domain whose characters are all `[^\s@]`
containing a dot that is neither its first nor its last character. -/
def validateEmail (email : String) : ValidationResult :=
  match splitOnChar '@' email.toList [] with
  | [localPart, domain] =>
    if !localPart.isEmpty && localPart.all isEmailChar &&
        domain.all isEmailChar &&
        ((domain.drop 1).dropLast.contains '.') then ⟨true⟩
    else ⟨false⟩
  | _ => ⟨false⟩

/-! ## Two-factor flow (src/controllers/auth/twoFactor.ts) -/

/-- Outcomes of `verifyOTP`, by response code. -/
inductive VerifyOTPResult where
  | missingData
  | invalidToken
  | userNotFound
  | invalidOTP
  | outdatedToken
  | success (token : String) (userId : String)
deriving Repr, DecidableEq

/-- `verifyOTP(otp, tempToken, rememberDevice)` from
src/controllers/auth/twoFactor.ts: decode the temporary token (reject
unless valid and `temp`), load the user, check the stored OTP (presence,
expiry, constant-time match), check `lastTempToken`, then clear the OTP
fields and `lastTempToken`, optionally remember the device, and issue a
full session token. -/
def verifyOTP (env : AuthEnv) (db : DB) (now : Time)
    (otp tempToken : String) (rememberDevice : Bool) :
    VerifyOTPResult × DB :=
  if otp.isEmpty || tempToken.isEmpty then (.missingData, db)
  else
    match env.decode tempToken with
    | none => (.invalidToken, db)
    | some decoded =>
      if !decoded.temp then (.invalidToken, db)
      else
        match db.users.find? (fun u => u.id == decoded.id) with
        | none => (.userNotFound, db)
        | some user =>
          if strFalsy user.twoFactorOTP || user.twoFactorExpires.isNone ||
              (match user.twoFactorExpires with
               | some e => decide (e < now)
               | none => true) ||
              !(constantTimeCompare (user.twoFactorOTP.getD "") otp) then
            (.invalidOTP, db)
          else if strFalsy user.lastTempToken ||
              !(constantTimeCompare (user.lastTempToken.getD "")
                tempToken) then
            (.outdatedToken, db)
          else
            let db1 := { db with users :=
              (updateUserById db.users user.id
              (fun u => { u with twoFactorOTP := none, twoFactorExpires := none, lastTempToken := none })) }
            let db2 :=
              if rememberDevice && truthyStr decoded.deviceId then
                saveTrustedDevice db1 now user.id (decoded.deviceId.getD "")
              else db1
            (.success (env.sign user.id) user.id, db2)

/-- Outcomes of `toggleTwoFactor`, by response code. -/
inductive ToggleTwoFactorResult where
  | oauthNotSupported
  | ok (enabled : Bool)
deriving Repr, DecidableEq

/-- `toggleTwoFactor` from src/controllers/auth/twoFactor.ts, for an
authenticated `user` and a boolean `enable`: OAuth accounts cannot enable
2FA; disabling deletes every trusted device of the user and clears the OTP
fields and `lastTempToken`. -/
def toggleTwoFactor (db : DB) (user : User) (enable : Bool) :
    ToggleTwoFactorResult × DB :=
  if !user.provider.isEmpty && user.provider != "local" && enable then
    (.oauthNotSupported, db)
  else
    let db1 := { db with users :=
      (updateUserById db.users user.id
      (fun u => { u with twoFactorEnabled := enable })) }
    if !enable then
      let db2 := { db1 with trustedDevices :=
        db1.trustedDevices.filter fun t => !(t.userId == user.id) }
      let db3 := { db2 with users :=
        (updateUserById db2.users user.id
        (fun u => { u with twoFactorOTP := none, twoFactorExpires := none, lastTempToken := none })) }
      (.ok enable, db3)
    else (.ok enable, db1)

/-! ## Password-reset flow (src/controllers/auth/password.ts) -/

/-- Outcomes of `forgotPassword`. Distinct constructors stand for
distinguishable response bodies: `genericSuccess` is the 200
"if this email exists we sent a link" body returned for unknown emails,
while `sentSuccess` is the 200 "we sent the link" body with `expiresAt`
returned for an actual send. -/
inductive ForgotPasswordResult where
  | missingEmail
  | genericSuccess
  | oauthAccount (provider : String)
  | throttled
  | sentSuccess (expiresAt : Time)
  | emailSendFailed
deriving Repr, DecidableEq

/-- HTTP status of each `forgotPassword` outcome. -/
def forgotStatus : ForgotPasswordResult → Nat
  | .missingEmail => 400
  | .genericSuccess => 200
  | .oauthAccount _ => 400
  | .throttled => 429
  | .sentSuccess _ => 200
  | .emailSendFailed => 500

/-- `forgotPassword(email)` from src/controllers/auth/password.ts (current
revision): unknown email gets the generic 200; an OAuth account gets 400
with the provider named; a recent outstanding reset gets 429; otherwise a
fresh token is stored as a SHA-256 digest with a 10-minute expiry and the
raw token is emailed (`rawToken` and `emailOk` stand for the random source
and the mail transport). -/
def forgotPassword (env : AuthEnv) (db : DB) (now : Time) (email : String)
    (rawToken : String) (emailOk : Bool) : ForgotPasswordResult × DB :=
  if email.isEmpty then (.missingEmail, db)
  else
    match db.users.find? (fun u => u.email == email) with
    | none => (.genericSuccess, db)
    | some user =>
      if !user.provider.isEmpty && user.provider != "local" then
        (.oauthAccount user.provider, db)
      else if (match user.resetPasswordExpires with
               | some e => decide (now - 60 * 1000 < e)
               | none => false) then
        (.throttled, db)
      else
        let hashed := env.sha256 rawToken
        let expires := now + OTP_EXPIRY
        let db1 := { db with users :=
          (updateUserById db.users user.id
          (fun u => { u with resetPasswordToken := some hashed, resetPasswordExpires := some expires })) }
        if emailOk then (.sentSuccess expires, db1)
        else
          (.emailSendFailed,
            { db1 with users :=
              (updateUserById db1.users user.id
              (fun u => { u with resetPasswordToken := none, resetPasswordExpires := none })) })

/-- Outcomes of `resetPassword`. -/
inductive ResetPasswordResult where
  | missingData
  | invalidPassword
  | invalidToken
  | ok
deriving Repr, DecidableEq

/-- `resetPassword(token, password)` from
src/controllers/auth/password.ts: validate the new password, re-hash the
presented token and match the stored digest with its expiry, update the
password, clear the reset-token fields, and delete every trusted device of
the user. -/
def resetPassword (env : AuthEnv) (db : DB) (now : Time)
    (token password : String) : ResetPasswordResult × DB :=
  if token.isEmpty || password.isEmpty then (.missingData, db)
  else if !(validatePassword password).isValid then (.invalidPassword, db)
  else
    let hashed := env.sha256 token
    match db.users.find? (fun u => u.resetPasswordToken == some hashed &&
        (match u.resetPasswordExpires with
         | some e => decide (now < e)
         | none => false)) with
    | none => (.invalidToken, db)
    | some user =>
      let db1 := { db with users :=
        (updateUserById db.users user.id
        (fun u => { u with password := some (env.hash password), resetPasswordToken := none, resetPasswordExpires := none })) }
      let db2 := { db1 with trustedDevices :=
        db1.trustedDevices.filter fun t => !(t.userId == user.id) }
      (.ok, db2)

/-- Outcomes of `changePassword`. -/
inductive ChangePasswordResult where
  | missingData
  | oauthAccount
  | noPassword
  | incorrectPassword
  | invalidPassword
  | ok
deriving Repr, DecidableEq

/-- `changePassword(currentPassword, newPassword)` from
src/controllers/auth/password.ts, for an authenticated `user`: local
accounts only, compare the current password, validate the new one, update
it, and delete every trusted device of the user. -/
def changePassword (env : AuthEnv) (db : DB) (user : User)
    (currentPassword newPassword : String) : ChangePasswordResult × DB :=
  if currentPassword.isEmpty || newPassword.isEmpty then (.missingData, db)
  else if !user.provider.isEmpty && user.provider != "local" then
    (.oauthAccount, db)
  else
    match user.password with
    | none => (.noPassword, db)
    | some stored =>
      if !(env.compare currentPassword stored) then (.incorrectPassword, db)
      else if !(validatePassword newPassword).isValid then
        (.invalidPassword, db)
      else
        let db1 := { db with users :=
          (updateUserById db.users user.id
          (fun u => { u with password := some (env.hash newPassword) })) }
        let db2 := { db1 with trustedDevices :=
          db1.trustedDevices.filter fun t => !(t.userId == user.id) }
        (.ok, db2)

/-! ## Registration (src/controllers/auth/register.ts) -/

/-- Outcomes of `register`. -/
inductive RegisterResult where
  | invalidUsername
  | invalidEmail
  | invalidPassword
  | usernameExists
  | emailExists
  | created (token : String) (userId : String)
deriving Repr, DecidableEq

/-- `register(username, email, password, fullName)` from
src/controllers/auth/register.ts: validate the three fields, check
uniqueness of username and email, create the user with
`provider:"local"`, `twoFactorEnabled:false` and the schema defaults
(`isEmailVerified` defaults to false, every token field to null), then
immediately issue a session token and return it with 201 (`newId` stands
for the store-generated id). -/
def register (env : AuthEnv) (db : DB)
    (username email password fullName : String) (newId : String) :
    RegisterResult × DB :=
  if !(validateUsername username).isValid then (.invalidUsername, db)
  else if !(validateEmail email).isValid then (.invalidEmail, db)
  else if !(validatePassword password).isValid then (.invalidPassword, db)
  else if db.users.any (fun u => u.username == username) then
    (.usernameExists, db)
  else if db.users.any (fun u => u.email == email) then (.emailExists, db)
  else
    let user : User :=
      { id := newId, username := username, email := email,
        fullName := fullName, password := some (env.hash password),
        provider := "local", isEmailVerified := false,
        emailVerifyToken := none, emailVerifyExpires := none,
        twoFactorEnabled := false, twoFactorOTP := none,
        twoFactorExpires := none, lastTempToken := none,
        resetPasswordToken := none, resetPasswordExpires := none }
    (.created (env.sign newId) newId, { db with users := db.users ++ [user] })

/-! ## Email-verification lifecycle
(src/controllers/auth/emailVerification.ts) -/

/-- Return shape of `createEmailVerification`. -/
structure EmailVerifyIssue where
  otp : String
  verifyToken : String
  success : Bool
deriving Repr, DecidableEq

/-- `createEmailVerification(userId)` from
src/controllers/auth/emailVerification.ts: store the fresh OTP in
`twoFactorOTP`, the SHA-256 digest of the fresh link token in
`emailVerifyToken`, the expiry `now + OTP_EXPIRY` in `emailVerifyExpires`,
and email the raw OTP and raw token (`rawOtp`, `rawToken` and `emailOk`
stand for the random source and the mail transport). -/
def createEmailVerification (env : AuthEnv) (db : DB) (now : Time)
    (userId rawOtp rawToken : String) (emailOk : Bool) :
    EmailVerifyIssue × DB :=
  match db.users.find? (fun u => u.id == userId) with
  | none => (⟨"", "", false⟩, db)
  | some _ =>
    let hashedTok := env.sha256 rawToken
    let db1 := { db with users :=
      (updateUserById db.users userId
      (fun u => { u with twoFactorOTP := some rawOtp, emailVerifyToken := some hashedTok, emailVerifyExpires := some (now + OTP_EXPIRY) })) }
    (⟨rawOtp, rawToken, emailOk⟩, db1)

/-- Outcomes of `verifyEmailWithOTP`. -/
inductive VerifyEmailResult where
  | missingOtp
  | invalidOtp
  | otpMismatch
  | verified (token : String) (userId : String)
deriving Repr, DecidableEq

/-- `verifyEmailWithOTP(otp, token)` from
src/controllers/auth/emailVerification.ts: with a truthy link token, look
the user up by the token digest and an unexpired `emailVerifyExpires` and
additionally require the stored OTP to equal the presented one; without a
link token, look the user up globally by `twoFactorOTP == otp` and an
unexpired `emailVerifyExpires` alone; then mark the user verified, clear
the verification fields, and return a session token for that user. -/
def verifyEmailWithOTP (env : AuthEnv) (db : DB) (now : Time)
    (otp : String) (token : Option String) : VerifyEmailResult × DB :=
  if otp.isEmpty then (.missingOtp, db)
  else
    let user? :=
      if truthyStr token then
        let hashedTok := env.sha256 (token.getD "")
        db.users.find? (fun u => u.emailVerifyToken == some hashedTok &&
          (match u.emailVerifyExpires with
           | some e => decide (now < e)
           | none => false))
      else
        db.users.find? (fun u => u.twoFactorOTP == some otp &&
          (match u.emailVerifyExpires with
           | some e => decide (now < e)
           | none => false))
    match user? with
    | none => (.invalidOtp, db)
    | some user =>
      if truthyStr token && !(user.twoFactorOTP == some otp) then
        (.otpMismatch, db)
      else
        let db1 := { db with users :=
          (updateUserById db.users user.id
          (fun u => { u with isEmailVerified := true, emailVerifyToken := none, emailVerifyExpires := none, twoFactorOTP := none })) }
        (.verified (env.sign user.id) user.id, db1)

/-- Outcomes of `resendEmailVerification`. -/
inductive ResendVerificationResult where
  | missingEmail
  | userNotFound
  | alreadyVerified
  | resent
  | sendFailed
deriving Repr, DecidableEq

/-- HTTP status of each `resendEmailVerification` outcome. -/
def resendStatus : ResendVerificationResult → Nat
  | .missingEmail => 400
  | .userNotFound => 404
  | .alreadyVerified => 400
  | .resent => 200
  | .sendFailed => 500

/-- `resendEmailVerification(email)` from
src/controllers/auth/emailVerification.ts: an unknown email gets 404
"no user found for this email"; a verified one gets 400; otherwise a fresh
verification is issued. -/
def resendEmailVerification (env : AuthEnv) (db : DB) (now : Time)
    (email rawOtp rawToken : String) (emailOk : Bool) :
    ResendVerificationResult × DB :=
  if email.isEmpty then (.missingEmail, db)
  else
    match db.users.find? (fun u => u.email == email) with
    | none => (.userNotFound, db)
    | some user =>
      if user.isEmailVerified then (.alreadyVerified, db)
      else
        let issued :=
          createEmailVerification env db now user.id rawOtp rawToken emailOk
        if issued.1.success then (.resent, issued.2)
        else (.sendFailed, issued.2)

/-! ## Session middleware (src/middleware/auth.ts)

The file concatenates three near-duplicate revisions of
`authenticateUser`; the fullest one (the second) rejects `temp`-flagged
tokens with 401 `REQUIRES_2FA`, while the first and third revisions have
no temp check at all. -/

/-- Outcomes of the middleware, by response: `proceed` means the user was
attached to the request and `next()` was called. -/
inductive AuthOutcome where
  | noToken
  | invalidToken
  | requiresTwoFactor
  | userNotFound
  | proceed (userId : String)
deriving Repr, DecidableEq

/-- The bearer token taken from an `Authorization` header:
`authHeader.split(' ')[1]`. -/
def bearerToken (h : String) : String :=
  String.mk ((splitOnChar ' ' h.toList []).getD 1 [])

/-- `authHeader.startsWith('Bearer ')`, as a character-list test. -/
def headerIsBearer (h : String) : Bool :=
  List.isPrefixOf "Bearer ".toList h.toList

/-- `authenticateUser` from src/middleware/auth.ts, second (fullest)
revision: require a `Bearer` header, verify the token, reject a
`temp`-flagged payload with 401 `REQUIRES_2FA`, load the user and attach
it. -/
def authenticateUser (env : AuthEnv) (db : DB) (authHeader : Option String) :
    AuthOutcome :=
  match authHeader with
  | none => .noToken
  | some h =>
    if !(headerIsBearer h) then .noToken
    else
      match env.decode (bearerToken h) with
      | none => .invalidToken
      | some decoded =>
        if decoded.temp then .requiresTwoFactor
        else
          match db.users.find? (fun u => u.id == decoded.id) with
          | none => .userNotFound
          | some user => .proceed user.id

/-- `authenticateUser` from src/middleware/auth.ts, first revision (and
likewise the third): identical control flow but with no check of the
`temp` flag. -/
def authenticateUserLegacy (env : AuthEnv) (db : DB)
    (authHeader : Option String) : AuthOutcome :=
  match authHeader with
  | none => .noToken
  | some h =>
    if !(headerIsBearer h) then .noToken
    else
      match env.decode (bearerToken h) with
      | none => .invalidToken
      | some decoded =>
        match db.users.find? (fun u => u.id == decoded.id) with
        | none => .userNotFound
        | some user => .proceed user.id

/-- The field update a successful `verifyOTP` applies: clear the OTP, its
expiry and `lastTempToken`. -/
def otpCleared (u : User) : User :=
  { u with twoFactorOTP := none, twoFactorExpires := none, lastTempToken := none }

/-- The field update `createEmailVerification` applies: store the OTP, the
link-token digest and the expiry. -/
def issuedFields (u : User) (rawOtp digest : String) (expires : Time) :
    User :=
  { u with
    twoFactorOTP := some rawOtp
    emailVerifyToken := some digest
    emailVerifyExpires := some expires }

/-- The field update a successful `verifyEmailWithOTP` applies: mark
verified and clear the verification fields. -/
def emailVerified (u : User) : User :=
  { u with
    isEmailVerified := true
    emailVerifyToken := none
    emailVerifyExpires := none
    twoFactorOTP := none }

/-- The user record `register` creates (schema defaults filled in). -/
def registeredUser (env : AuthEnv)
    (username email password fullName newId : String) : User :=
  { id := newId, username := username, email := email,
    fullName := fullName, password := some (env.hash password),
    provider := "local", isEmailVerified := false,
    emailVerifyToken := none, emailVerifyExpires := none,
    twoFactorEnabled := false, twoFactorOTP := none,
    twoFactorExpires := none, lastTempToken := none,
    resetPasswordToken := none, resetPasswordExpires := none }

/-! ## Concrete fixtures for counterexamples and witnesses -/

/-- Concrete instantiation of the external collaborators: a decode table
with one temporary token (`tempTok1`), one superseded temporary token
(`oldTok`) and one session token (`sessTok`), plus tagged sign/hash/digest
functions. -/
def testEnv : AuthEnv :=
  { decode := fun s =>
      if s == "tempTok1" then some ⟨"u1", "a@x.com", true, some "dev1"⟩
      else if s == "oldTok" then some ⟨"u1", "a@x.com", true, some "dev1"⟩
      else if s == "sessTok" then some ⟨"u1", "a@x.com", false, none⟩
      else none
    sign := fun uid => "session-" ++ uid
    hash := fun pw => "bcrypt-" ++ pw
    compare := fun pw h => h == "bcrypt-" ++ pw
    sha256 := fun s => "sha-" ++ s }

/-- A verified local user with 2FA enabled and no outstanding tokens. -/
def baseUser : User :=
  { id := "u1", username := "alice", email := "a@x.com", fullName := "",
    password := some "bcrypt-Passw0rd1", provider := "local",
    isEmailVerified := true, emailVerifyToken := none,
    emailVerifyExpires := none, twoFactorEnabled := true,
    twoFactorOTP := none, twoFactorExpires := none, lastTempToken := none,
    resetPasswordToken := none, resetPasswordExpires := none }

/-- Store for the claim C3 witness: `u1` holds OTP `123456` expiring at
t = 10,000,000 bound to `tempTok1`. -/
def c3User : User :=
  { baseUser with
    twoFactorOTP := some "123456"
    twoFactorExpires := some 10000000
    lastTempToken := some "tempTok1" }

def c3Db : DB := { users := [c3User], trustedDevices := [] }

/-- Store for the claim C4 counterexample and witness: just `u1`. -/
def c4Db : DB := { users := [baseUser], trustedDevices := [] }

/-- Store for the claim C8 counterexample and witness: `u1` holds the NEW
pair (OTP `222222`, temp token `newTok`) after a regeneration; the old
pair was (OTP `111111`, temp token `oldTok`). -/
def c8User : User :=
  { baseUser with
    twoFactorOTP := some "222222"
    twoFactorExpires := some 10000000
    lastTempToken := some "newTok" }

def c8Db : DB := { users := [c8User], trustedDevices := [] }

/-- Store for the claim C9 witness: `u1` and `u2` each trust one device. -/
def c9Db : DB :=
  { users := [baseUser],
    trustedDevices := [ ⟨"u1", "dev1", 5000000⟩, ⟨"u2", "dev9", 5000000⟩ ] }

/-- User for the claim C9 witness: `u1` holding an outstanding reset token
digest `sha-rtok` expiring at t = 2,000,000. -/
def c9ResetUser : User :=
  { baseUser with
    resetPasswordToken := some "sha-rtok"
    resetPasswordExpires := some 2000000 }

/-- Store for the claim C9 witness password-reset run. -/
def c9ResetDb : DB :=
  { users := [c9ResetUser], trustedDevices := [ ⟨"u1", "dev1", 5000000⟩ ] }

/-- Store for the claim C5 counterexample: one federated (Google) account
`g@x.com` with no password, plus one local unverified account `l@x.com`
with no outstanding reset token. -/
def c5OauthUser : User :=
  { baseUser with
    id := "u2"
    username := "gina"
    email := "g@x.com"
    provider := "google"
    password := none }

def c5LocalUser : User :=
  { baseUser with
    id := "u3"
    username := "lara"
    email := "l@x.com"
    isEmailVerified := false }

def c5Db : DB := { users := [c5OauthUser, c5LocalUser], trustedDevices := [] }

/-- The user record `register` creates for
("alice", "alice@x.com", "Passw0rd1", "") with store id `u1`. -/
def regUser : User :=
  { id := "u1", username := "alice", email := "alice@x.com", fullName := "",
    password := some "bcrypt-Passw0rd1", provider := "local",
    isEmailVerified := false, emailVerifyToken := none,
    emailVerifyExpires := none, twoFactorEnabled := false,
    twoFactorOTP := none, twoFactorExpires := none, lastTempToken := none,
    resetPasswordToken := none, resetPasswordExpires := none }

/-- Store for the claim C10 witness: `u1` is unverified and holds
verification OTP `654321` expiring at t = 10,000,000 next to a second
unrelated user. -/
def c10Other : User :=
  { baseUser with id := "u7", username := "uma", email := "um@x.com" }

def c10Target : User :=
  { baseUser with
    isEmailVerified := false
    twoFactorOTP := some "654321"
    emailVerifyExpires := some 10000000
    emailVerifyToken := some "sha-linktok" }

def c10Db : DB := { users := [c10Other, c10Target], trustedDevices := [] }

/-- Claim C6 as stated, instantiated at one input: a successful
registration leaves the created user UNVERIFIED with a stored verification
OTP and a stored link-token digest (issuance at registration time). -/
def c6ClaimAt (env : AuthEnv) (db : DB)
    (username email password fullName newId : String) : Prop :=
  ∀ tok uid,
    (register env db username email password fullName newId).1 =
      .created tok uid →
    ∃ u, (register env db username email password fullName
        newId).2.users.find? (fun v => v.id == uid) = some u ∧
      u.isEmailVerified = false ∧ u.twoFactorOTP ≠ none ∧
      u.emailVerifyToken ≠ none

end JobsDB

namespace JobsDB

/-! ## Theorems -/

/-- Both zipped components agree on every position exactly when equal-length
character lists are equal. -/
theorem zip_all_beq_iff_eq (l₁ : List Char) : ∀ l₂ : List Char,
    l₁.length = l₂.length →
    ((((l₁.zip l₂).all fun p => p.1 == p.2) = true) ↔ l₁ = l₂) := by
  induction l₁ with
  | nil => intro l₂ h; cases l₂ <;> simp_all
  | cons a t ih =>
    intro l₂ h
    cases l₂ with
    | nil => simp at h
    | cons b t₂ =>
      simp only [List.length_cons] at h
      have h' : t.length = t₂.length := by omega
      simp [List.all_cons, ih t₂ h', beq_iff_eq, Bool.and_eq_true,
        List.cons.injEq]

/-- Unfolding equation for `constantTimeCompare`. -/
theorem constantTimeCompare_eq (a b : String) : constantTimeCompare a b =
    ((((a.toList ++ List.replicate (max a.length b.length - a.length)
          (Char.ofNat 0)).zip
        (b.toList ++ List.replicate (max a.length b.length - b.length)
          (Char.ofNat 0))).all fun p => p.1 == p.2) &&
      (a.length == b.length)) := rfl

/-- The padded comparison succeeds exactly on equal strings. -/
theorem constantTimeCompare_iff_eq (a b : String) :
    constantTimeCompare a b = true ↔ a = b := by
  obtain ⟨da⟩ := a
  obtain ⟨db⟩ := b
  rw [constantTimeCompare_eq]
  by_cases hl : da.length = db.length
  · have hl' : (String.mk da).length = (String.mk db).length := hl
    have hmax : max (String.mk da).length (String.mk db).length -
        (String.mk da).length = 0 := by
      rw [hl', Nat.max_self, Nat.sub_self]
    have hmax2 : max (String.mk da).length (String.mk db).length -
        (String.mk db).length = 0 := by
      rw [hl', Nat.max_self, Nat.sub_self]
    rw [hmax, hmax2]
    simp only [List.replicate_zero, List.append_nil]
    have htl : (String.mk da).toList = da := rfl
    have htl2 : (String.mk db).toList = db := rfl
    rw [htl, htl2]
    rw [Bool.and_eq_true]
    have hb : ((String.mk da).length == (String.mk db).length) = true := by
      simpa using hl'
    simp only [hb, and_true]
    rw [zip_all_beq_iff_eq da db hl]
    simp [String.ext_iff]
  · have hb : ((String.mk da).length == (String.mk db).length) = false := by
      simpa using hl
    rw [hb, Bool.and_false]
    refine ⟨fun hcontra => absurd hcontra (by simp), fun hcontra => ?_⟩
    exact absurd (congrArg String.length hcontra) hl

/-- Claim C1 counterexample: on the empty attempt history the count of
qualifying failed attempts is 0 < 5, yet the guard returns `isLocked:false`
with no message at all, instead of surfacing "attempts remaining" = 5 as
the claim states. -/
theorem c1_counterexample : ¬ c1ClaimAt [] "alice" "1.2.3.4" none 2000000 := by
  intro h
  exact absurd (h.1 (by decide)) (by decide)

/-- Claim C1 (amended): when no qualifying failed attempt lies strictly
after the window start, the guard returns not-locked with no message;
otherwise, if the count of failures at or after the window start is below
the ceiling it returns not-locked with attempts remaining = N − count, and
if the count reaches the ceiling it locks until the most recent qualifying
failure's timestamp plus the lockout duration, returning the remaining
seconds, and returns plain not-locked once that expiry has passed. -/
theorem bruteforce_branch_behavior (attempts : List LoginAttempt)
    (usernameOrEmail ip : String) (deviceId : Option String) (now : Time) :
    (bfLastFailed attempts usernameOrEmail ip deviceId
        (bfStartCountFrom attempts usernameOrEmail ip deviceId now) = none →
      checkBruteForceProtection attempts usernameOrEmail ip deviceId now =
        { isLocked := false }) ∧
    (∀ m, bfLastFailed attempts usernameOrEmail ip deviceId
        (bfStartCountFrom attempts usernameOrEmail ip deviceId now) = some m →
      (bfFailedCount attempts usernameOrEmail ip deviceId
          (bfStartCountFrom attempts usernameOrEmail ip deviceId now) <
          MAX_LOGIN_ATTEMPTS →
        checkBruteForceProtection attempts usernameOrEmail ip deviceId now =
          { isLocked := false
            message := some (.attemptsLeftMsg (MAX_LOGIN_ATTEMPTS -
              bfFailedCount attempts usernameOrEmail ip deviceId
                (bfStartCountFrom attempts usernameOrEmail ip deviceId
                  now))) }) ∧
      (MAX_LOGIN_ATTEMPTS ≤ bfFailedCount attempts usernameOrEmail ip deviceId
          (bfStartCountFrom attempts usernameOrEmail ip deviceId now) →
        (now < m.createdAt + LOCKOUT_DURATION →
          checkBruteForceProtection attempts usernameOrEmail ip deviceId now =
            { isLocked := true
              message := some (.lockedMsg
                ((m.createdAt + LOCKOUT_DURATION - now + 999) / 1000))
              remainingTime := some
                ((m.createdAt + LOCKOUT_DURATION - now + 999) / 1000) }) ∧
        (m.createdAt + LOCKOUT_DURATION ≤ now →
          checkBruteForceProtection attempts usernameOrEmail ip deviceId now =
            { isLocked := false }))) := by
  unfold checkBruteForceProtection bfEvaluate
  cases h : bfLastFailed attempts usernameOrEmail ip deviceId
      (bfStartCountFrom attempts usernameOrEmail ip deviceId now) with
  | none => simp
  | some m =>
    refine ⟨by simp, fun m' hm' => ?_⟩
    injection hm' with he
    subst he
    by_cases hc : bfFailedCount attempts usernameOrEmail ip deviceId
        (bfStartCountFrom attempts usernameOrEmail ip deviceId now) <
        MAX_LOGIN_ATTEMPTS
    · exact ⟨fun _ => by simp [hc], fun hge => absurd hge (by omega)⟩
    · refine ⟨fun hlt => absurd hlt hc, fun _ => ?_⟩
      by_cases ht : now < m.createdAt + LOCKOUT_DURATION
      · exact ⟨fun _ => by simp [hc, ht], fun hge => absurd ht (not_lt.mpr hge)⟩
      · exact ⟨fun hlt => absurd hlt ht, fun _ => by simp [hc, ht]⟩

/-- Claim C1 amended witness: a single qualifying failure gives not-locked
with 4 attempts remaining. -/
theorem bruteforce_branch_behavior_witness :
    checkBruteForceProtection c1WitnessAttempts "alice" "1.2.3.4" none
      2000000 =
      { isLocked := false, message := some (.attemptsLeftMsg 4) } := by
  have h := (bruteforce_branch_behavior c1WitnessAttempts "alice" "1.2.3.4"
    none 2000000).2
    { ipAddress := "1.2.3.4", usernameOrEmail := "alice", isSuccess := false,
      deviceId := none, userId := none, createdAt := 1900000 } (by decide)
  exact h.1 (by decide)

/-- Claim C2 counterexample: with a matching success at t = 0 (far older
than now − W = 200,000) plus four stale failures and one fresh failure, the
guard is LOCKED for 200 more seconds, whereas the window the claim
describes — starting at the later of (last success, now − W) — counts only
the single fresh failure and reports not-locked with 4 attempts remaining:
the old success extends the counting window beyond W. -/
theorem c2_counterexample :
    checkBruteForceProtection c2Attempts "alice" "1.2.3.4" none 2000000 =
      { isLocked := true, message := some (.lockedMsg 200),
        remainingTime := some 200 } ∧
    checkBruteForceSpecWindow c2Attempts "alice" "1.2.3.4" none 2000000 =
      { isLocked := false, message := some (.attemptsLeftMsg 4) } ∧
    (bfLastSuccess c2Attempts "alice" "1.2.3.4" none).map
      LoginAttempt.createdAt = some 0 ∧
    (0 : Int) < 2000000 - ATTEMPT_WINDOW := by
  refine ⟨by decide, by decide, by decide, by decide⟩

/-- Claim C2 (amended): the guard counts failures from the most recent
matching success's timestamp whenever such a success exists, however old;
this agrees with the claimed "later of (last success, now − W)" window
exactly when the last success is no older than now − W, or when no
matching success exists at all. -/
theorem bruteforce_window_agrees_when_success_recent
    (attempts : List LoginAttempt) (usernameOrEmail ip : String)
    (deviceId : Option String) (now : Time) :
    (∀ a, bfLastSuccess attempts usernameOrEmail ip deviceId = some a →
      now - ATTEMPT_WINDOW ≤ a.createdAt →
      checkBruteForceProtection attempts usernameOrEmail ip deviceId now =
        checkBruteForceSpecWindow attempts usernameOrEmail ip deviceId now) ∧
    (bfLastSuccess attempts usernameOrEmail ip deviceId = none →
      checkBruteForceProtection attempts usernameOrEmail ip deviceId now =
        checkBruteForceSpecWindow attempts usernameOrEmail ip deviceId now) := by
  constructor
  · intro a ha hge
    unfold checkBruteForceProtection checkBruteForceSpecWindow
    have h1 : bfStartCountFrom attempts usernameOrEmail ip deviceId now =
        a.createdAt := by
      unfold bfStartCountFrom
      rw [ha]
    have h2 : bfSpecWindowStart attempts usernameOrEmail ip deviceId now =
        a.createdAt := by
      unfold bfSpecWindowStart
      rw [ha]
      exact max_eq_left hge
    rw [h1, h2]
  · intro ha
    unfold checkBruteForceProtection checkBruteForceSpecWindow
    have h1 : bfStartCountFrom attempts usernameOrEmail ip deviceId now =
        now - ATTEMPT_WINDOW := by
      unfold bfStartCountFrom
      rw [ha]
    have h2 : bfSpecWindowStart attempts usernameOrEmail ip deviceId now =
        now - ATTEMPT_WINDOW := by
      unfold bfSpecWindowStart
      rw [ha]
    rw [h1, h2]

/-- Claim C2 amended witness: with a success 50 seconds old at check time,
the guard and the spec-worded window coincide. -/
theorem bruteforce_window_agrees_witness :
    checkBruteForceProtection c2WitnessAttempts "alice" "1.2.3.4" none
        2000000 =
      checkBruteForceSpecWindow c2WitnessAttempts "alice" "1.2.3.4" none
        2000000 := by
  exact (bruteforce_window_agrees_when_success_recent c2WitnessAttempts
    "alice" "1.2.3.4" none 2000000).1
    { ipAddress := "1.2.3.4", usernameOrEmail := "alice", isSuccess := true,
      deviceId := none, userId := none, createdAt := 1950000 }
    (by decide) (by decide)


/-! ### Shared helper lemmas -/

/-- A nonempty string is not `isEmpty`. -/
theorem isEmpty_false_of_ne {s : String} (h : s ≠ "") :
    s.isEmpty = false := by
  cases he : s.isEmpty
  · rfl
  · exact absurd ((String.isEmpty_iff s).mp he) h

/-- `constantTimeCompare` accepts equal strings. -/
theorem constantTimeCompare_self (a : String) :
    constantTimeCompare a a = true :=
  (constantTimeCompare_iff_eq a a).mpr rfl

/-- `constantTimeCompare` rejects distinct strings. -/
theorem constantTimeCompare_ne {a b : String} (h : a ≠ b) :
    constantTimeCompare a b = false := by
  cases hc : constantTimeCompare a b
  · rfl
  · exact absurd ((constantTimeCompare_iff_eq a b).mp hc) h

/-- After `deleteMany({where:{userId}})`, no row of that user matches. -/
theorem any_userId_filter_ne (l : List TrustedDevice) (uid : String) :
    ((l.filter fun t => !(t.userId == uid)).any
      fun t => t.userId == uid) = false := by
  induction l with
  | nil => rfl
  | cons a t ih => cases h : a.userId == uid <;> simp [List.filter_cons, h, ih]

/-- A truthy optional string is a nonempty `some`. -/
theorem truthy_some {o : Option String} (h : truthyStr o = true) :
    ∃ s, o = some s ∧ s.isEmpty = false := by
  cases o with
  | none => exact absurd h (by simp [truthyStr])
  | some s =>
    refine ⟨s, rfl, ?_⟩
    simpa [truthyStr] using h

/-- Updating a user's row keeps the (updated) row in the store. -/
theorem mem_updateUserById {users : List User} {u : User} {uid : String}
    (h : u ∈ users) (hid : u.id = uid) (f : User → User) :
    f u ∈ updateUserById users uid f := by
  unfold updateUserById
  have hmm := List.mem_map_of_mem (fun v => if v.id == uid then f v else v) h
  simpa [hid] using hmm

/-- `saveTrustedDevice` touches only the trusted-device table. -/
theorem saveTrustedDevice_users (db : DB) (now : Time) (a b : String) :
    (saveTrustedDevice db now a b).users = db.users := by
  unfold saveTrustedDevice
  split
  · rfl
  · split <;> rfl

/-- `updateFirstTrusted` keeps an updated matching row when one existed. -/
theorem updateFirstTrusted_any (l : List TrustedDevice) (uid d : String)
    (e : Time)
    (h : (l.any fun t => t.userId == uid && t.deviceId == d) = true) :
    ((updateFirstTrusted l uid d e).any fun t =>
      t.userId == uid && t.deviceId == d &&
        t.expiresAt == e) = true := by
  induction l with
  | nil => exact absurd h (by simp)
  | cons a t ih =>
    cases ha : (a.userId == uid && a.deviceId == d) with
    | true =>
      have h1 : (a.userId == uid) = true := (Bool.and_eq_true_iff.mp ha).1
      have h2 : (a.deviceId == d) = true := (Bool.and_eq_true_iff.mp ha).2
      simp [updateFirstTrusted, ha, h1, h2, List.any_cons]
    | false =>
      have ht : (t.any fun v => v.userId == uid && v.deviceId == d) =
          true := by
        rw [List.any_cons, ha, Bool.false_or] at h
        exact h
      simp [updateFirstTrusted, ha, List.any_cons, ih ht]

/-- After `saveTrustedDevice` with a nonempty device id, the store holds a
row for that (userId, deviceId) whose expiry is the sliding
`now + TRUSTED_DEVICE_EXPIRY`. -/
theorem saveTrustedDevice_upserts (db : DB) (now : Time) (uid d : String)
    (hd : d ≠ "") :
    ((saveTrustedDevice db now uid d).trustedDevices.any fun t =>
      t.userId == uid && t.deviceId == d &&
        t.expiresAt == now + TRUSTED_DEVICE_EXPIRY) = true := by
  unfold saveTrustedDevice
  rw [isEmpty_false_of_ne hd]
  simp only [Bool.false_eq_true, if_false]
  by_cases hex : (db.trustedDevices.any
      fun t => t.userId == uid && t.deviceId == d) = true
  · simp only [hex, if_true]
    exact updateFirstTrusted_any db.trustedDevices uid d
      (now + TRUSTED_DEVICE_EXPIRY) hex
  · simp only [hex, if_false]
    simp [List.any_append]

/-! ### Claim C7 -/

/-- Claim C7: `constantTimeCompare(a, b)` returns true if and only if
`a = b`, for all string pairs including differing lengths and empty
strings; when the lengths differ it returns false. -/
theorem c7_constantTimeCompare_correct (a b : String) :
    (constantTimeCompare a b = true ↔ a = b) ∧
    (a.length ≠ b.length → constantTimeCompare a b = false) := by
  refine ⟨constantTimeCompare_iff_eq a b, fun h => ?_⟩
  cases hc : constantTimeCompare a b
  · rfl
  · exact absurd
      (congrArg String.length ((constantTimeCompare_iff_eq a b).mp hc)) h

/-- Claim C7 witness: equal strings compare true; a length mismatch
compares false. -/
theorem c7_constantTimeCompare_witness :
    ("ab" : String) = "ab" ∧ constantTimeCompare "ab" "abc" = false :=
  ⟨(c7_constantTimeCompare_correct "ab" "ab").1.mp (by decide),
   (c7_constantTimeCompare_correct "ab" "abc").2 (by decide)⟩

/-! ### Claim C4 -/

/-- Claim C4 counterexample: the first concatenated revision of
`authenticateUser` (src/middleware/auth.ts lines 17–60) has no `temp`
check: presented a validly signed temporary token (payload
`temp := true`), it attaches the user and proceeds, accepting the
temporary token as a bearer session credential. -/
theorem c4_counterexample :
    authenticateUserLegacy testEnv c4Db (some "Bearer tempTok1") =
      .proceed "u1" ∧
    (testEnv.decode (bearerToken "Bearer tempTok1")).map TokenPayload.temp =
      some true :=
  ⟨by decide, by decide⟩

/-- Claim C4 (amended): the revision of `authenticateUser` that checks the
`temp` flag rejects every `temp`-flagged token with 401 `REQUIRES_2FA`
before attaching any user, on every endpoint it guards; the two other
concatenated revisions of the middleware lack this check and accept such a
token. -/
theorem temp_token_rejected (env : AuthEnv) (db : DB) (h : String)
    (p : TokenPayload) :
    headerIsBearer h = true →
    env.decode (bearerToken h) = some p →
    p.temp = true →
    authenticateUser env db (some h) = .requiresTwoFactor := by
  intro hs hd ht
  simp [authenticateUser, hs, hd, ht]

/-- Claim C4 amended witness: the checking revision rejects the concrete
temporary token the legacy revision accepted. -/
theorem temp_token_rejected_witness :
    authenticateUser testEnv c4Db (some "Bearer tempTok1") =
      .requiresTwoFactor :=
  temp_token_rejected testEnv c4Db "Bearer tempTok1"
    ⟨"u1", "a@x.com", true, some "dev1"⟩ (by decide) (by decide) (by decide)

/-! ### Claim C8 -/

/-- Claim C8 counterexample: in store `c8Db` a new pair (OTP `222222`,
temp token `newTok`) has superseded the old pair (OTP `111111`, temp token
`oldTok`); verifying the old temp token with its accompanying old OTP
fails with `INVALID_OTP`, not the claimed `OUTDATED_TOKEN`. -/
theorem c8_counterexample :
    (verifyOTP testEnv c8Db 1000000 "111111" "oldTok" false).1 =
      .invalidOTP ∧
    VerifyOTPResult.invalidOTP ≠ VerifyOTPResult.outdatedToken :=
  ⟨by decide, by decide⟩

/-- Claim C8 (amended): `verifyOTP` checks the stored OTP before the
stored temp token, so after a new (OTP, temp-token) pair supersedes an old
one, presenting the old temp token with its accompanying old OTP fails
with "invalid OTP"; "outdated token" is returned only when the presented
OTP matches the currently stored one. -/
theorem otp_checked_before_token (env : AuthEnv) (db : DB) (now : Time)
    (oldOtp oldTok newOtp newTok : String) (remember : Bool)
    (p : TokenPayload) (u : User) :
    oldOtp ≠ "" → oldTok ≠ "" → newOtp ≠ "" →
    env.decode oldTok = some p → p.temp = true →
    db.users.find? (fun v => v.id == p.id) = some u →
    u.twoFactorOTP = some newOtp →
    u.lastTempToken = some newTok → newTok ≠ oldTok →
    (newOtp ≠ oldOtp →
      (verifyOTP env db now oldOtp oldTok remember).1 = .invalidOTP) ∧
    (∀ e, u.twoFactorExpires = some e → ¬ e < now →
      (verifyOTP env db now newOtp oldTok remember).1 =
        .outdatedToken) := by
  intro ho ht hn hd hp hf hotp hltk hne
  constructor
  · intro hneq
    have hcmp : constantTimeCompare (u.twoFactorOTP.getD "") oldOtp =
        false := by
      rw [hotp]
      exact constantTimeCompare_ne (fun he => hneq he)
    simp [verifyOTP, isEmpty_false_of_ne ho, isEmpty_false_of_ne ht, hd,
      hp, hf, hcmp]
  · intro e he hlt
    have hcmp1 : constantTimeCompare (u.twoFactorOTP.getD "") newOtp =
        true := by
      rw [hotp]
      exact constantTimeCompare_self newOtp
    have hcmp2 : constantTimeCompare (u.lastTempToken.getD "") oldTok =
        false := by
      rw [hltk]
      exact constantTimeCompare_ne hne
    simp [verifyOTP, isEmpty_false_of_ne hn, isEmpty_false_of_ne ht, hd,
      hp, hf, hcmp1, hcmp2, hotp, he, strFalsy, truthyStr,
      isEmpty_false_of_ne ho, decide_eq_false hlt, constantTimeCompare_self]

/-- Claim C8 amended witness: the concrete old pair yields `INVALID_OTP`
and the concrete new OTP with the old token yields `OUTDATED_TOKEN`. -/
theorem otp_checked_before_token_witness :
    (verifyOTP testEnv c8Db 1000000 "111111" "oldTok" false).1 =
      .invalidOTP ∧
    (verifyOTP testEnv c8Db 1000000 "222222" "oldTok" false).1 =
      .outdatedToken := by
  have h := otp_checked_before_token testEnv c8Db 1000000 "111111" "oldTok"
    "222222" "newTok" false ⟨"u1", "a@x.com", true, some "dev1"⟩ c8User
    (by decide) (by decide) (by decide) (by decide) (by decide) (by decide)
    (by decide) (by decide) (by decide)
  exact ⟨h.1 (by decide), h.2 10000000 (by decide) (by decide)⟩

/-! ### Claim C9 -/

/-- Claim C9: after disabling 2FA completes, after a successful password
reset, and after a successful password change, zero TrustedDevice rows
remain for the affected user — each operation deletes every trusted-device
row of that user. -/
theorem c9_trusted_devices_purged (env : AuthEnv) (db : DB) (user : User)
    (now : Time) (token password currentPassword newPassword : String) :
    (((toggleTwoFactor db user false).2.trustedDevices.any
        fun t => t.userId == user.id) = false) ∧
    (∀ u, token ≠ "" → password ≠ "" →
      (validatePassword password).isValid = true →
      db.users.find? (fun v =>
        v.resetPasswordToken == some (env.sha256 token) &&
        (match v.resetPasswordExpires with
         | some e => decide (now < e)
         | none => false)) = some u →
      (resetPassword env db now token password).1 = .ok ∧
      ((resetPassword env db now token password).2.trustedDevices.any
        fun t => t.userId == u.id) = false) ∧
    (currentPassword ≠ "" → newPassword ≠ "" →
      (!user.provider.isEmpty && user.provider != "local") = false →
      ∀ stored, user.password = some stored →
      env.compare currentPassword stored = true →
      (validatePassword newPassword).isValid = true →
      (changePassword env db user currentPassword newPassword).1 = .ok ∧
      ((changePassword env db user currentPassword
          newPassword).2.trustedDevices.any
        fun t => t.userId == user.id) = false) := by
  refine ⟨?_, ?_, ?_⟩
  · simp [toggleTwoFactor, any_userId_filter_ne]
  · intro u htok hpw hval hf
    simp [resetPassword, isEmpty_false_of_ne htok, isEmpty_false_of_ne hpw,
      hval, hf, any_userId_filter_ne]
  · intro hcur hnew hprov stored hstored hcmp hval
    simp [changePassword, isEmpty_false_of_ne hcur,
      isEmpty_false_of_ne hnew, hprov, hstored, hcmp, hval,
      any_userId_filter_ne]

/-- Claim C9 witness: concrete disable-2FA and password-reset runs leave no
trusted-device row for `u1`. -/
theorem c9_trusted_devices_purged_witness :
    (((toggleTwoFactor c9Db baseUser false).2.trustedDevices.any
        fun t => t.userId == "u1") = false) ∧
    ((resetPassword testEnv c9ResetDb 1000000 "rtok"
        "NewPassw0rd").1 = .ok ∧
      ((resetPassword testEnv c9ResetDb 1000000 "rtok"
          "NewPassw0rd").2.trustedDevices.any
        fun t => t.userId == "u1") = false) := by
  refine ⟨(c9_trusted_devices_purged testEnv c9Db baseUser 1000000 "rtok"
    "NewPassw0rd" "a" "b").1, ?_⟩
  exact (c9_trusted_devices_purged testEnv c9ResetDb baseUser 1000000
    "rtok" "NewPassw0rd" "a" "b").2.1 c9ResetUser (by decide) (by decide)
    (by decide) (by decide)


/-! ### Claim C5 -/

/-- Claim C5 counterexample: in store `c5Db` the email `g@x.com` belongs
to a federated (Google) account and `missing@x.com` to nobody;
`forgotPassword` answers 400 `OAUTH_ACCOUNT` naming the provider for the
former and a generic 200 for the latter — distinguishable responses — and
`resendEmailVerification` answers 404 for the unknown email, revealing
non-existence. -/
theorem c5_counterexample :
    (forgotPassword testEnv c5Db 1000000 "g@x.com" "tok" true).1 =
      .oauthAccount "google" ∧
    (forgotPassword testEnv c5Db 1000000 "missing@x.com" "tok" true).1 =
      .genericSuccess ∧
    forgotStatus (forgotPassword testEnv c5Db 1000000 "g@x.com" "tok"
      true).1 = 400 ∧
    forgotStatus (forgotPassword testEnv c5Db 1000000 "missing@x.com"
      "tok" true).1 = 200 ∧
    (resendEmailVerification testEnv c5Db 1000000 "missing@x.com" "o" "t"
      true).1 = .userNotFound ∧
    resendStatus (resendEmailVerification testEnv c5Db 1000000
      "missing@x.com" "o" "t" true).1 = 404 :=
  ⟨by decide, by decide, by decide, by decide, by decide, by decide⟩

/-- Claim C5 (amended): `forgotPassword` answers the generic 200 only for
an email that is not in the store; an existing federated account gets 400
naming its provider, and an existing local account with a reset token
expiring after now − 60s gets 429 — and `resendEmailVerification` answers
404 for an unknown email — so the responses reveal whether the email
exists and in which state. -/
theorem forgot_resend_reveal_account_state (env : AuthEnv) (db : DB)
    (now : Time) (email rawToken rawOtp rawTok : String) (emailOk : Bool) :
    email ≠ "" →
    ((db.users.find? (fun u => u.email == email) = none →
      forgotPassword env db now email rawToken emailOk =
        (.genericSuccess, db) ∧
      resendEmailVerification env db now email rawOtp rawTok emailOk =
        (.userNotFound, db)) ∧
     (∀ u, db.users.find? (fun u => u.email == email) = some u →
      (!u.provider.isEmpty && u.provider != "local") = true →
      forgotPassword env db now email rawToken emailOk =
        (.oauthAccount u.provider, db)) ∧
     (∀ u e, db.users.find? (fun u => u.email == email) = some u →
      (!u.provider.isEmpty && u.provider != "local") = false →
      u.resetPasswordExpires = some e → now - 60 * 1000 < e →
      forgotPassword env db now email rawToken emailOk =
        (.throttled, db))) := by
  intro he
  have heE := isEmpty_false_of_ne he
  refine ⟨?_, ?_, ?_⟩
  · intro hf
    exact ⟨by simp [forgotPassword, heE, hf],
      by simp [resendEmailVerification, heE, hf]⟩
  · intro u hf hprov
    simp [forgotPassword, heE, hf, hprov]
  · intro u e hf hprov hexp hlt
    simp [forgotPassword, heE, hf, hprov, hexp, decide_eq_true hlt]
    intro hcontra
    exact absurd hlt (not_lt.mpr hcontra)

/-- Claim C5 amended witness: the unknown email `missing@x.com` gets the
generic 200 from forgot-password and 404 from resend-verification. -/
theorem forgot_resend_reveal_witness :
    forgotPassword testEnv c5Db 1000000 "missing@x.com" "tok" true =
      (.genericSuccess, c5Db) ∧
    resendEmailVerification testEnv c5Db 1000000 "missing@x.com" "o" "t"
      true = (.userNotFound, c5Db) :=
  (forgot_resend_reveal_account_state testEnv c5Db 1000000 "missing@x.com"
    "tok" "o" "t" true (by decide)).1 (by decide)

/-! ### Claim C6 -/

/-- Claim C6 counterexample: registering alice/alice@x.com/Passw0rd1 in
an empty store succeeds, but the created user carries no verification OTP
and no link-token digest — `register` issues no email verification — so
the claim's issuance-at-registration property fails (and the 201 response
already carries a full session token). -/
theorem c6_counterexample :
    ¬ c6ClaimAt testEnv ⟨[], []⟩ "alice" "alice@x.com" "Passw0rd1" ""
      "u1" := by
  intro hcl
  obtain ⟨u, hu, hv, hotp, htok⟩ :=
    hcl (testEnv.sign "u1") "u1" (by decide)
  have heq : (register testEnv ⟨[], []⟩ "alice" "alice@x.com" "Passw0rd1"
      "" "u1").2.users.find? (fun v => v.id == "u1") = some regUser := by
    decide
  rw [heq] at hu
  injection hu with h2
  subst h2
  exact hotp rfl

/-- Claim C6 (amended): a successful registration of a local account
creates the user in the UNVERIFIED state (isEmailVerified false) but with
no verification OTP and no link-token digest stored, and the 201 response
immediately carries a full session token; the verification OTP and the
digest of the raw link token are stored by `createEmailVerification`,
which runs when an unverified user attempts login or requests a resend,
not at registration. -/
theorem register_unverified_session_token (env : AuthEnv) (db : DB)
    (username email password fullName newId : String) :
    (validateUsername username).isValid = true →
    (validateEmail email).isValid = true →
    (validatePassword password).isValid = true →
    (db.users.any fun u => u.username == username) = false →
    (db.users.any fun u => u.email == email) = false →
    ((∃ u : User,
        (register env db username email password fullName newId).2.users =
          db.users ++ [u] ∧
        u.id = newId ∧ u.isEmailVerified = false ∧ u.provider = "local" ∧
        u.twoFactorOTP = none ∧ u.emailVerifyToken = none ∧
        u.emailVerifyExpires = none ∧ u.lastTempToken = none) ∧
      (register env db username email password fullName newId).1 =
        .created (env.sign newId) newId) ∧
    (∀ (now : Time) (uid rawOtp rawTok : String) (emailOk : Bool)
        (u : User),
      db.users.find? (fun v => v.id == uid) = some u →
      (createEmailVerification env db now uid rawOtp rawTok emailOk).1 =
        ⟨rawOtp, rawTok, emailOk⟩ ∧
      issuedFields u rawOtp (env.sha256 rawTok) (now + OTP_EXPIRY) ∈
        (createEmailVerification env db now uid rawOtp rawTok
          emailOk).2.users) := by
  intro h1 h2 h3 h4 h5
  constructor
  · constructor
    · refine ⟨registeredUser env username email password fullName newId,
        ?_, rfl, rfl, rfl, rfl, rfl, rfl, rfl⟩
      simp [register, registeredUser, h1, h2, h3, h4, h5]
    · simp [register, h1, h2, h3, h4, h5]
  · intro now uid rawOtp rawTok emailOk u hf
    constructor
    · simp [createEmailVerification, hf]
    · have hmem := List.mem_of_find?_eq_some hf
      have hid : u.id = uid := by
        have h0 := List.find?_some hf
        simpa using h0
      have hres := mem_updateUserById hmem hid
        (fun v => issuedFields v rawOtp (env.sha256 rawTok)
          (now + OTP_EXPIRY))
      simp only [createEmailVerification, hf]
      exact hres

/-- Claim C6 amended witness: the concrete registration returns a session
token for the fresh user id, and a concrete `createEmailVerification` run
stores the digest. -/
theorem register_unverified_witness :
    (register testEnv ⟨[], []⟩ "alice" "alice@x.com" "Passw0rd1" ""
      "u1").1 = .created (testEnv.sign "u1") "u1" ∧
    (createEmailVerification testEnv ⟨[regUser], []⟩ 1000000 "u1" "654321"
      "linktok" true).1 = ⟨"654321", "linktok", true⟩ := by
  have ha := register_unverified_session_token testEnv ⟨[], []⟩ "alice"
    "alice@x.com" "Passw0rd1" "" "u1" (by decide) (by decide) (by decide)
    (by decide) (by decide)
  have hb := register_unverified_session_token testEnv ⟨[regUser], []⟩
    "bob" "bob@x.com" "Passw0rd1" "" "u2" (by decide) (by decide)
    (by decide) (by decide) (by decide)
  exact ⟨ha.1.2, (hb.2 1000000 "u1" "654321" "linktok" true regUser
    (by decide)).1⟩

/-! ### Claim C10 -/

/-- Claim C10: when `verifyEmailWithOTP` is called with an OTP but no link
token, the record acted on is selected solely by the global lookup
`twoFactorOTP == otp` with an unexpired `emailVerifyExpires`; for every
store, whichever record that lookup selects is marked verified and a
session token for that user is returned, with no other check binding the
caller to the account. -/
theorem verifyEmail_otp_global_lookup (env : AuthEnv) (db : DB)
    (now : Time) (otp : String) (token : Option String) :
    otp ≠ "" → truthyStr token = false →
    ((db.users.find? (fun u => u.twoFactorOTP == some otp &&
        (match u.emailVerifyExpires with
         | some e => decide (now < e)
         | none => false)) = none →
      verifyEmailWithOTP env db now otp token = (.invalidOtp, db)) ∧
     (∀ u, db.users.find? (fun u => u.twoFactorOTP == some otp &&
        (match u.emailVerifyExpires with
         | some e => decide (now < e)
         | none => false)) = some u →
      (verifyEmailWithOTP env db now otp token).1 =
        .verified (env.sign u.id) u.id ∧
      emailVerified u ∈ (verifyEmailWithOTP env db now otp
        token).2.users)) := by
  intro ho htok
  have hoE := isEmpty_false_of_ne ho
  refine ⟨?_, ?_⟩
  · intro hf
    simp [verifyEmailWithOTP, hoE, htok, hf]
  · intro u hf
    have hmem := List.mem_of_find?_eq_some hf
    have hres := mem_updateUserById hmem rfl (fun v => emailVerified v)
    constructor
    · simp [verifyEmailWithOTP, hoE, htok, hf]
    · simp only [verifyEmailWithOTP, hoE, htok, hf]
      simpa [htok] using hres

/-- Claim C10 witness: in `c10Db` the bare OTP `654321` selects the
unverified record `u1` next to an unrelated user and returns a session
token for it. -/
theorem verifyEmail_otp_global_witness :
    (verifyEmailWithOTP testEnv c10Db 1000000 "654321" none).1 =
      .verified (testEnv.sign "u1") "u1" ∧
    emailVerified c10Target ∈
      (verifyEmailWithOTP testEnv c10Db 1000000 "654321" none).2.users := by
  have h := (verifyEmail_otp_global_lookup testEnv c10Db 1000000 "654321"
    none (by decide) (by decide)).2 c10Target (by decide)
  exact ⟨h.1, h.2⟩


/-! ### Claim C3 -/

/-- The OTP guard of `verifyOTP` passes (evaluates to false) exactly when
the stored OTP equals the presented nonempty one and the stored expiry
exists and has not passed. -/
theorem otpCondition_false_iff (u : User) (otp : String) (now : Time)
    (ho : otp ≠ "") :
    ((strFalsy u.twoFactorOTP || u.twoFactorExpires.isNone ||
      (match u.twoFactorExpires with
       | some e => decide (e < now)
       | none => true) ||
      !(constantTimeCompare (u.twoFactorOTP.getD "") otp)) = false) ↔
    (u.twoFactorOTP = some otp ∧
      ∃ e, u.twoFactorExpires = some e ∧ ¬ e < now) := by
  cases hO : u.twoFactorOTP with
  | none => simp [strFalsy, truthyStr]
  | some s =>
    cases hE : u.twoFactorExpires with
    | none => simp [strFalsy, truthyStr]
    | some e =>
      cases hie : s.isEmpty with
      | true =>
        have hs : s = "" := (String.isEmpty_iff s).mp hie
        subst hs
        simp [strFalsy, truthyStr]
        constructor
        · rintro ⟨⟨hfalse, _⟩, _⟩
          exact absurd hfalse (by decide)
        · rintro ⟨hh, _⟩
          exact absurd hh.symm ho
      | false =>
        cases hlt : decide (e < now) with
        | true =>
          have helt := of_decide_eq_true hlt
          simp [strFalsy, truthyStr, hie, hlt]
          intro _
          exact helt
        | false =>
          have hnlt := of_decide_eq_false hlt
          cases hcmp : constantTimeCompare s otp with
          | false =>
            have hne : s ≠ otp := by
              intro hh
              subst hh
              rw [constantTimeCompare_self] at hcmp
              cases hcmp
            simp [strFalsy, truthyStr, hie, hlt, hcmp]
            intro hh
            exact absurd hh hne
          | true =>
            have hseq : s = otp := (constantTimeCompare_iff_eq s otp).mp hcmp
            subst hseq
            simp [strFalsy, truthyStr, hie, hlt, hcmp]
            exact not_lt.mp hnlt

/-- The temp-token guard of `verifyOTP` passes (evaluates to false)
exactly when the stored `lastTempToken` equals the presented nonempty
token. -/
theorem tokenCondition_false_iff (u : User) (tempToken : String)
    (ht : tempToken ≠ "") :
    ((strFalsy u.lastTempToken ||
      !(constantTimeCompare (u.lastTempToken.getD "")
        tempToken)) = false) ↔
    u.lastTempToken = some tempToken := by
  cases hL : u.lastTempToken with
  | none => simp [strFalsy, truthyStr]
  | some s =>
    cases hie : s.isEmpty with
    | true =>
      have hs : s = "" := (String.isEmpty_iff s).mp hie
      subst hs
      simp [strFalsy, truthyStr]
      constructor
      · rintro ⟨hfalse, _⟩
        exact absurd hfalse (by decide)
      · intro hh
        exact absurd hh.symm ht
    | false =>
      cases hcmp : constantTimeCompare s tempToken with
      | false =>
        have hne : s ≠ tempToken := by
          intro hh
          subst hh
          rw [constantTimeCompare_self] at hcmp
          cases hcmp
        simp [strFalsy, truthyStr, hie, hcmp]
        intro hh
        exact absurd hh hne
      | true =>
        have hseq : s = tempToken :=
          (constantTimeCompare_iff_eq s tempToken).mp hcmp
        subst hseq
        simp [strFalsy, truthyStr, hie, hcmp]


/-- Claim C3: `verifyOTP(otp, tempToken, rememberDevice)` rejects when the
temporary token is invalid, expired or not marked temp; otherwise, for the
loaded user, it succeeds exactly when the stored OTP equals the presented
one, the stored OTP is unexpired, and the presented token equals the
stored `lastTempToken`; on success it clears the OTP fields and
`lastTempToken`, upserts a TrustedDevice for (userId, deviceId) iff
`rememberDevice` holds and a device id is present, and issues a full
session token for that user. -/
theorem verifyOTP_correct (env : AuthEnv) (db : DB) (now : Time)
    (otp tempToken : String) (remember : Bool) :
    otp ≠ "" → tempToken ≠ "" →
    ((env.decode tempToken = none →
        verifyOTP env db now otp tempToken remember = (.invalidToken, db)) ∧
     (∀ p, env.decode tempToken = some p → p.temp = false →
        verifyOTP env db now otp tempToken remember = (.invalidToken, db)) ∧
     (∀ p u, env.decode tempToken = some p → p.temp = true →
        db.users.find? (fun v => v.id == p.id) = some u →
        (((verifyOTP env db now otp tempToken remember).1 =
            .success (env.sign u.id) u.id) ↔
          (u.twoFactorOTP = some otp ∧
            (∃ e, u.twoFactorExpires = some e ∧ ¬ e < now) ∧
            u.lastTempToken = some tempToken)) ∧
        (∀ e, u.twoFactorOTP = some otp → u.twoFactorExpires = some e →
          ¬ e < now → u.lastTempToken = some tempToken →
          (otpCleared u ∈
            (verifyOTP env db now otp tempToken remember).2.users ∧
           ((remember && truthyStr p.deviceId) = true →
             ((verifyOTP env db now otp tempToken
                 remember).2.trustedDevices.any fun t =>
               t.userId == u.id && t.deviceId == (p.deviceId.getD "") &&
                 t.expiresAt == now + TRUSTED_DEVICE_EXPIRY) = true) ∧
           ((remember && truthyStr p.deviceId) = false →
             (verifyOTP env db now otp tempToken
                 remember).2.trustedDevices = db.trustedDevices))))) := by
  intro ho ht
  have hoE := isEmpty_false_of_ne ho
  have htE := isEmpty_false_of_ne ht
  refine ⟨?_, ?_, ?_⟩
  · intro hd
    simp [verifyOTP, hoE, htE, hd]
  · intro p hd hp
    simp [verifyOTP, hoE, htE, hd, hp]
  · intro p u hd hp hf
    by_cases hra : (u.twoFactorOTP = some otp ∧
        ∃ e, u.twoFactorExpires = some e ∧ ¬ e < now)
    · have hc1 : (strFalsy u.twoFactorOTP || u.twoFactorExpires.isNone ||
          (match u.twoFactorExpires with
           | some e => decide (e < now)
           | none => true) ||
          !(constantTimeCompare (u.twoFactorOTP.getD "") otp)) = false :=
        (otpCondition_false_iff u otp now ho).mpr hra
      by_cases hrb : u.lastTempToken = some tempToken
      · have hc2 : (strFalsy u.lastTempToken ||
            !(constantTimeCompare (u.lastTempToken.getD "")
              tempToken)) = false :=
          (tokenCondition_false_iff u tempToken ht).mpr hrb
        constructor
        · constructor
          · intro _
            exact ⟨hra.1, hra.2, hrb⟩
          · intro _
            simp [verifyOTP, hoE, htE, hd, hp, hf, hc1, hc2]
        · intro e h1 h2 h3 h4
          have hmem := List.mem_of_find?_eq_some hf
          have hres := mem_updateUserById hmem rfl
            (fun v => otpCleared v)
          refine ⟨?_, ?_, ?_⟩
          · by_cases hrt : (remember && truthyStr p.deviceId) = true
            · simp [verifyOTP, hoE, htE, hd, hp, hf, hc1, hc2, hrt,
                saveTrustedDevice_users]
              exact hres
            · simp [verifyOTP, hoE, htE, hd, hp, hf, hc1, hc2, hrt]
              exact hres
          · intro hrt
            obtain ⟨ds, hds, hdse⟩ :=
              truthy_some (Bool.and_eq_true_iff.mp hrt).2
            have hne : p.deviceId.getD "" ≠ "" := by
              rw [hds, Option.getD_some]
              intro hh
              rw [hh] at hdse
              exact absurd hdse (by decide)
            have hstate : (verifyOTP env db now otp tempToken remember).2 =
                saveTrustedDevice
                  { db with users :=
                      updateUserById db.users u.id (fun v => otpCleared v) }
                  now u.id (p.deviceId.getD "") := by
              simp [verifyOTP, hoE, htE, hd, hp, hf, hc1, hc2, hrt,
                otpCleared]
            rw [hstate]
            exact saveTrustedDevice_upserts _ now u.id
              (p.deviceId.getD "") hne
          · intro hrt
            have hstate : (verifyOTP env db now otp tempToken remember).2 =
                { db with users :=
                    updateUserById db.users u.id (fun v => otpCleared v) } := by
              simp [verifyOTP, hoE, htE, hd, hp, hf, hc1, hc2, hrt,
                otpCleared]
            rw [hstate]
      · have hc2t : (strFalsy u.lastTempToken ||
            !(constantTimeCompare (u.lastTempToken.getD "")
              tempToken)) = true := by
          cases h2c : (strFalsy u.lastTempToken ||
              !(constantTimeCompare (u.lastTempToken.getD "") tempToken))
          · exact absurd
              ((tokenCondition_false_iff u tempToken ht).mp h2c) hrb
          · rfl
        have hres1 : (verifyOTP env db now otp tempToken remember).1 =
            .outdatedToken := by
          simp [verifyOTP, hoE, htE, hd, hp, hf, hc1, hc2t]
        constructor
        · constructor
          · intro hsucc
            rw [hres1] at hsucc
            exact absurd hsucc (by simp)
          · rintro ⟨_, _, h3⟩
            exact absurd h3 hrb
        · intro e h1 h2 h3 h4
          exact absurd h4 hrb
    · have hc1t : (strFalsy u.twoFactorOTP || u.twoFactorExpires.isNone ||
          (match u.twoFactorExpires with
           | some e => decide (e < now)
           | none => true) ||
          !(constantTimeCompare (u.twoFactorOTP.getD "") otp)) = true := by
        cases h1c : (strFalsy u.twoFactorOTP || u.twoFactorExpires.isNone ||
            (match u.twoFactorExpires with
             | some e => decide (e < now)
             | none => true) ||
            !(constantTimeCompare (u.twoFactorOTP.getD "") otp))
        · exact absurd ((otpCondition_false_iff u otp now ho).mp h1c) hra
        · rfl
      have hres1 : (verifyOTP env db now otp tempToken remember).1 =
          .invalidOTP := by
        simp [verifyOTP, hoE, htE, hd, hp, hf, hc1t]
      constructor
      · constructor
        · intro hsucc
          rw [hres1] at hsucc
          exact absurd hsucc (by simp)
        · rintro ⟨h1, h2, _⟩
          exact absurd ⟨h1, h2⟩ hra
      · intro e h1 h2 h3 h4
        exact absurd ⟨h1, e, h2, h3⟩ hra

/-- Claim C3 witness: the concrete valid triple succeeds, clears the OTP
state and trusts the device. -/
theorem verifyOTP_correct_witness :
    ((verifyOTP testEnv c3Db 1000000 "123456" "tempTok1" true).1 =
      .success (testEnv.sign "u1") "u1") ∧
    otpCleared c3User ∈
      (verifyOTP testEnv c3Db 1000000 "123456" "tempTok1" true).2.users ∧
    ((verifyOTP testEnv c3Db 1000000 "123456" "tempTok1"
        true).2.trustedDevices.any fun t =>
      t.userId == "u1" && t.deviceId == "dev1" &&
        t.expiresAt == 1000000 + TRUSTED_DEVICE_EXPIRY) = true := by
  have h := (verifyOTP_correct testEnv c3Db 1000000 "123456" "tempTok1"
    true (by decide) (by decide)).2.2
    ⟨"u1", "a@x.com", true, some "dev1"⟩ c3User (by decide) (by decide)
    (by decide)
  have heff := h.2 10000000 (by decide) (by decide) (by decide) (by decide)
  exact ⟨h.1.mpr ⟨by decide, ⟨10000000, by decide, by decide⟩, by decide⟩,
    heff.1, heff.2.1 (by decide)⟩

end JobsDB
